import Mathlib

/-!
Verification of the car-damage-detection authenticity pipeline
(metadata analyzer, forensics analyzer, scoring engine).

The TypeScript sources are shallowly embedded: JavaScript numbers are
modelled as rationals (ℚ), integer-valued outputs as ℤ/ℕ, byte buffers as
lists of naturals, and fallible operations as Option/Except.  Free-text
fields that no property depends on (the `details`, `evidence`,
`primaryIndicators` and `recommendation` strings, which are built with
float formatting) are omitted from the records; every field that any
scoring or analysis decision reads is modelled.
-/

namespace CarCheck

/-! ### JavaScript primitives -/

/-- JS Math.round: floor(x + 1/2) (half-up, also for negative values). -/
def jsRound (q : ℚ) : ℤ := ⌊q + 1/2⌋

/-- JS Math.min on two (non-NaN) numbers. -/
def jsMin (a b : ℚ) : ℚ := if a ≤ b then a else b

/-- JS Math.max on two (non-NaN) numbers. -/
def jsMax (a b : ℚ) : ℚ := if a ≤ b then b else a

/-- JS truthiness of an optional string (undefined and the empty string
are falsy). -/
def strTruthy : Option String → Bool
  | none => false
  | some s => s != ""

/-- ASCII lower-casing, modelling String.prototype.toLowerCase on the
ASCII strings this code base compares (written over the character list,
which is what String.map does). -/
def jsToLower (s : String) : String := ⟨s.data.map Char.toLower⟩

/-- Does the list start with the given sequence? -/
def leadsWith [BEq α] : List α → List α → Bool
  | [], _ => true
  | _ :: _, [] => false
  | a :: as, b :: bs => a == b && leadsWith as bs

/-- Contiguous-subsequence test (JS String.prototype.includes /
Buffer.prototype.includes). The empty needle is always found. -/
def containsSeq [BEq α] (needle : List α) : List α → Bool
  | [] => needle.isEmpty
  | b :: bs => leadsWith needle (b :: bs) || containsSeq needle bs

/-- `haystack.includes(needle)` on strings. -/
def strIncludes (haystack needle : String) : Bool :=
  containsSeq needle.data haystack.data

/-- Worker for jsSplit: accumulates the current field (reversed). -/
def jsSplitGo (sep : Char) : List Char → List Char → List String
  | [], acc => [⟨acc.reverse⟩]
  | c :: cs, acc =>
    if c == sep then ⟨acc.reverse⟩ :: jsSplitGo sep cs []
    else jsSplitGo sep cs (c :: acc)

/-- JS String.prototype.split with a one-character separator (the only
form the sources use): splits at every occurrence, keeping empty
fields; the empty string yields [""]. -/
def jsSplit (s : String) (sep : Char) : List String := jsSplitGo sep s.data []

/-- One decimal digit. -/
def isDigit (c : Char) : Bool := '0' ≤ c && c ≤ '9'

/-- Value of a decimal digit character. -/
def digitVal (c : Char) : ℕ := c.toNat - 48

/-- Longest digit run at the front of a character list, with its value. -/
def takeDigits : List Char → ℕ → ℕ → (ℕ × ℕ)
  | [], acc, cnt => (acc, cnt)
  | c :: cs, acc, cnt =>
    if isDigit c then takeDigits cs (acc * 10 + digitVal c) (cnt + 1)
    else (acc, cnt)

/-- JS parseInt (radix 10, as called in the sources; the 0x-prefix hex
path of a missing radix never triggers on colon-split date fields, and is
not modelled): trim leading whitespace, optional sign, longest leading
digit run; no digits means NaN, modelled as none. -/
def parseIntJS (s : String) : Option ℤ :=
  let chars := s.data.dropWhile (fun c => c == ' ' || c == '\t' || c == '\n' || c == '\r')
  let (sign, rest) : ℤ × List Char :=
    match chars with
    | '-' :: t => (-1, t)
    | '+' :: t => (1, t)
    | t => (1, t)
  let (v, cnt) := takeDigits rest 0 0
  if cnt = 0 then none else some (sign * v)

/-! ### Date parsing (src lib/utils: parseEXIFDate, parseGPSTimestamp)

A JS Date constructed as `new Date(y, m, d, h, mi, s)` is modelled by its
constructor arguments; it is an Invalid Date exactly when one of the
arguments is NaN.  `Option JSDate` with none = Invalid Date models the
constructed value, and the outer Option of the parsers models null. -/

structure JSDate where
  year : ℤ
  month : ℤ
  day : ℤ
  hour : ℤ
  minute : ℤ
  second : ℤ
  deriving DecidableEq, Repr

/-- new Date(year, month, day, hour, minute, second): Invalid Date (none)
when an argument is NaN. -/
def mkDate (y mo d h mi s : Option ℤ) : Option JSDate :=
  match y, mo, d, h, mi, s with
  | some y, some mo, some d, some h, some mi, some s =>
    some { year := y, month := mo, day := d, hour := h, minute := mi, second := s }
  | _, _, _, _, _, _ => none

/-- parseEXIFDate from lib/utils: splits "YYYY:MM:DD HH:MM:SS", returns
null (outer none) when the two-field / three-part shape fails, otherwise
builds a Date from parseInt of the parts (month decremented). parseInt
never throws, so the try/catch in the source is a no-op. -/
def parseEXIFDate (dateStr : String) : Option (Option JSDate) :=
  if dateStr = "" then none
  else
    match jsSplit dateStr ' ' with
    | [datePart, timePart] =>
      match jsSplit datePart ':', jsSplit timePart ':' with
      | [y, mo, d], [h, mi, s] =>
        some (mkDate (parseIntJS y) ((parseIntJS mo).map (· - 1)) (parseIntJS d)
          (parseIntJS h) (parseIntJS mi) (parseIntJS s))
      | _, _ => none
    | _ => none

/-- Indexing used by parseGPSTimestamp: an out-of-range JS array access
yields undefined, and parseInt(undefined) is NaN (none). -/
def parseIntAt (parts : List String) (i : ℕ) : Option ℤ :=
  match parts.get? i with
  | some p => parseIntJS p
  | none => none

/-- parseGPSTimestamp from lib/utils: no shape validation at all beyond
the truthiness of the two strings. -/
def parseGPSTimestamp (dateStr timeStr : String) : Option (Option JSDate) :=
  if dateStr = "" ∨ timeStr = "" then none
  else
    let dateParts := jsSplit dateStr ':'
    let timeParts := jsSplit timeStr ':'
    some (mkDate (parseIntAt dateParts 0) ((parseIntAt dateParts 1).map (· - 1))
      (parseIntAt dateParts 2) (parseIntAt timeParts 0) (parseIntAt timeParts 1)
      (parseIntAt timeParts 2))

/-- The spec's fixed pattern YYYY:MM:DD HH:MM:SS, written from the spec's
words (for comparison with the lenient source parser). -/
def matchesEXIFPattern (s : String) : Bool :=
  match s.data with
  | [y1, y2, y3, y4, c1, m1, m2, c2, d1, d2, sp, h1, h2, c3, i1, i2, c4, s1, s2] =>
    [y1, y2, y3, y4, m1, m2, d1, d2, h1, h2, i1, i2, s1, s2].all isDigit &&
      c1 == ':' && c2 == ':' && sp == ' ' && c3 == ':' && c4 == ':'
  | _ => false

/-- The shape test actually performed by parseEXIFDate: two
space-separated fields of three colon-separated components each. -/
def exifShape (s : String) : Bool :=
  match jsSplit s ' ' with
  | [datePart, timePart] =>
    match jsSplit datePart ':', jsSplit timePart ':' with
    | [_, _, _], [_, _, _] => true
    | _, _ => false
  | _ => false

/-! ### GPS conversion (src metadata-analyzer: convertDMSToDecimal) -/

/-- Math.round(x * 1000000) / 1000000. -/
def round6 (q : ℚ) : ℚ := (jsRound (q * 1000000) : ℚ) / 1000000

/-- convertDMSToDecimal: rationals given as numerator/denominator pairs
(the piexif representation). Returns undefined (none) when fewer than
three components are present.  Rational division models the exact
arithmetic; the denominators are nonzero in every EXIF rational this is
called on (a zero denominator would give NaN in JS, 0 here). -/
def convertDMSToDecimal (dms : List (ℚ × ℚ)) (ref : String) : Option ℚ :=
  match dms with
  | (dn, dd) :: (mn, md) :: (sn, sd) :: _ =>
    let degrees := dn / dd
    let minutes := mn / md
    let seconds := sn / sd
    let decimal := degrees + minutes / 60 + seconds / 3600
    let decimal := if ref = "S" ∨ ref = "W" then -decimal else decimal
    some (round6 decimal)
  | _ => none

/-! ### Data model (src types/index.ts) -/

inductive FindingType
  | critical
  | warning
  | info
  deriving DecidableEq, Repr

inductive FindingCategory
  | metadata
  | statistics
  | forensics
  | aiSignature
  deriving DecidableEq, Repr

/-- A Finding; `details`/`evidence` free-text payloads are omitted (no
decision reads them). -/
structure Finding where
  type : FindingType
  severity : ℚ
  category : FindingCategory
  message : String
  deriving DecidableEq, Repr

structure CameraInfo where
  make : Option String
  model : Option String
  software : Option String
  lensModel : Option String
  orientation : Option ℚ
  xResolution : Option ℚ
  yResolution : Option ℚ
  deriving DecidableEq, Repr

structure GPSInfo where
  latitude : Option ℚ
  longitude : Option ℚ
  altitude : Option ℚ
  latitudeRef : Option String
  longitudeRef : Option String
  deriving DecidableEq, Repr

structure TimestampAnalysis where
  exifDateTimeOriginal : Option JSDate
  exifDateTimeDigitized : Option JSDate
  exifDateTime : Option JSDate
  gpsTimestamp : Option JSDate
  inconsistencies : List Finding
  deriving DecidableEq, Repr

structure AISignature where
  tool : Option String
  toolType : Option String
  confidence : ℚ
  evidence : String
  deriving DecidableEq, Repr

inductive AnalysisStatus
  | passed
  | warning
  | failed
  deriving DecidableEq, Repr

structure ELAAnalysis where
  variance : ℚ
  meanDifference : ℚ
  maxDifference : ℚ
  hotspotCount : ℚ
  hotspotPercentage : ℚ
  hasManipulation : Bool
  severity : ℚ
  deriving DecidableEq, Repr

structure FrequencyAnalysis where
  hasAnomalies : Bool
  anomalyType : String
  spectralEnergy : ℚ
  gridArtifacts : Bool
  periodicPatterns : Bool
  severity : ℚ
  deriving DecidableEq, Repr

structure TextureAnalysis where
  naturalness : ℚ
  repetitionScore : ℚ
  microPatternScore : ℚ
  textureRichness : ℚ
  isArtificial : Bool
  severity : ℚ
  deriving DecidableEq, Repr

structure CompressionAnalysis where
  hasInconsistency : Bool
  inconsistencyType : Option String
  hasStandardQuantization : Bool
  estimatedQuality : Option ℚ
  blockArtifacts : Bool
  ghostingDetected : Bool
  qualityMismatch : Bool
  severity : ℚ
  deriving DecidableEq, Repr

structure AIArtifactAnalysis where
  hasArtifacts : Bool
  artifactTypes : List String
  ganFingerprint : ℚ
  diffusionMarkers : ℚ
  description : String
  severity : ℚ
  deriving DecidableEq, Repr

structure ForensicAnalysis where
  isScreenshot : Bool
  screenshotProbability : ℚ
  exportToolDetected : Option String
  hasStandardQuantization : Bool
  quantizationQuality : Option ℚ
  thumbnailConsistent : Bool
  fileFormatValid : Bool
  deriving DecidableEq, Repr

/-- MetadataAnalysisResult; the optional TS `aiSignatures` array is
modelled as a plain list (undefined and [] behave identically in every
guard that reads it). -/
structure MetadataAnalysisResult where
  status : AnalysisStatus
  findings : List Finding
  cameraInfo : Option CameraInfo
  timestamps : Option TimestampAnalysis
  aiSignatures : List AISignature
  gpsInfo : Option GPSInfo
  hasEXIF : Bool
  hasGPS : Bool
  deriving DecidableEq, Repr

structure ForensicsAnalysisResult where
  status : AnalysisStatus
  findings : List Finding
  forensics : Option ForensicAnalysis
  elaAnalysis : Option ELAAnalysis
  frequencyAnalysis : Option FrequencyAnalysis
  textureAnalysis : Option TextureAnalysis
  compressionAnalysis : Option CompressionAnalysis
  aiArtifactAnalysis : Option AIArtifactAnalysis
  deriving DecidableEq, Repr

/-! ### AI-tool signature database (src constants/ai-tools.ts) -/

def diffusionTools : List String :=
  ["stable diffusion", "automatic1111", "comfyui", "swarmui", "forge", "webui",
   "sdxl", "stablecascade", "automatic 1111", "a1111", "invokeai", "invoke ai",
   "sd-webui", "kohya", "diffusers", "flux", "fooocus", "sd1.5", "sd2.0",
   "sd2.1", "sdxl1.0", "stable-diffusion", "dreamshaper", "deliberate",
   "realistic vision", "cyberrealistic", "juggernaut"]

def generativeTools : List String :=
  ["dall-e", "dalle", "dall e", "dall·e", "openai", "chatgpt", "midjourney",
   "mid journey", "mj", "leonardo ai", "leonardo.ai", "leonardo", "ideogram",
   "ideogram.ai", "playground ai", "playground", "adobe firefly", "firefly",
   "bing image creator", "microsoft designer", "copilot", "gemini image",
   "google imagen", "imagen", "stability ai", "stability.ai", "nightcafe",
   "artbreeder", "craiyon", "dream", "deep dream", "neural.love", "starryai",
   "jasper art", "pixlr ai", "fotor ai", "picsart ai", "runwayml", "runway",
   "kaiber", "synthesia", "d-id", "heygen", "luma ai", "pika labs", "pika",
   "kling ai", "sora", "gen-2", "gen-3", "suno", "udio"]

def editingTools : List String :=
  ["adobe photoshop", "photoshop", "adobe lightroom", "lightroom",
   "adobe after effects", "after effects", "adobe premiere", "gimp",
   "gnu image manipulation", "canva", "affinity photo", "affinity designer",
   "skylum luminar", "luminar", "capture one", "dxo photolab", "photolab",
   "darktable", "rawtherapee", "on1", "corel painter", "pixelmator",
   "procreate", "clip studio", "krita", "photopea"]

def exportToolList : List String :=
  ["screenshot", "snipping tool", "screen capture", "grab", "preview",
   "paint", "mspaint", "chrome", "safari", "firefox", "edge", "figma",
   "sketch", "adobe xd", "design tool", "windows photo", "photos",
   "image viewer", "snagit", "greenshot", "lightshot", "sharex", "gyazo"]

def aiMarkers : List String :=
  ["ai-generated", "ai generated", "ai_generated", "artificial intelligence",
   "machine learning", "neural network", "diffusion model",
   "generative adversarial", "gan", "text-to-image", "text to image", "t2i",
   "image generation", "image synthesis", "stable diffusion", "synthid",
   "c2pa", "contentcredentials", "content credentials", "parameters:",
   "negative prompt:", "negative_prompt", "steps:", "cfg scale:", "cfg_scale",
   "seed:", "model:", "sampler:", "scheduler:", "denoising strength:",
   "denoising_strength", "clip skip:", "clip_skip", "batch size:",
   "batch_size", "hires fix", "hires. fix", "upscale", "upscaler", "lora:",
   "lora_", "<lora:", "lyco:", "embedding:", "ti:", "hypernetwork",
   "hypernet", "controlnet", "inpaint", "img2img", "txt2img", "latent",
   "vae", "version:", "aspect ratio:", "--ar", "--v", "--quality", "--q",
   "--stylize", "--s", "--chaos", "--c", "--weird", "--w", "--niji",
   "--style", "--tile", "--repeat", "--no", "--iw", "workflow", "node_",
   "ksampler", "checkpoint", "positive_conditioning", "negative_conditioning"]

/-- PNG_AI_CHUNK_KEYWORDS. -/
def pngAIChunkKeywords : List String :=
  ["parameters", "prompt", "negative prompt", "negative_prompt",
   "positive prompt", "workflow", "comfyui", "automatic1111",
   "stable diffusion", "steps:", "cfg scale:", "cfg_scale", "seed:",
   "sampler:", "scheduler:", "model:", "checkpoint", "lora", "lyco",
   "hypernetwork", "hires fix", "denoising", "inpaint", "controlnet",
   "adetailer", "upscale", "latent", "vae:", "clip skip", "midjourney",
   "version:", "aspect ratio:", "chaos:", "stylize:", "weird:", "quality:",
   "--ar", "--v ", "--q ", "--s ", "dall-e", "dalle", "openai", "ksampler",
   "checkpoint_loader", "clip_text_encode", "empty_latent", "vae_decode",
   "save_image", "leonardo", "alchemy", "photoreal", "phoenix",
   "ai generated", "generated by", "created with"]

/-- AI_TOOLS_SIGNATURES in Object.entries order (insertion order of the
object literal). -/
def aiToolCategories : List (String × List String) :=
  [("DIFFUSION", diffusionTools), ("GENERATIVE", generativeTools),
   ("EDITING", editingTools), ("EXPORT_TOOLS", exportToolList),
   ("AI_MARKERS", aiMarkers)]

/-! ### AI-tool detection (src constants/ai-tools.ts: detectAITool,
isExportTool) -/

structure AIToolDetection where
  tool : String
  type : String
  confidence : ℚ
  deriving DecidableEq, Repr

/-- Confidence expression of detectAITool, keyed by category name. -/
def categoryConfidence (category : String) : ℚ :=
  if category = "DIFFUSION" ∨ category = "GENERATIVE" then 95
  else if category = "AI_MARKERS" then 90
  else if category = "EDITING" then 40
  else 30

/-- category.replace of the first underscore with a space (JS
String.prototype.replace with a string pattern replaces only the first
occurrence). -/
def replaceFirstUnderscore (s : String) : String :=
  ⟨go s.data⟩
where
  go : List Char → List Char
    | [] => []
    | c :: cs => if c == '_' then ' ' :: cs else c :: go cs

/-- The detection record returned for a match in a given category. -/
def categoryHit (software category : String) : AIToolDetection :=
  { tool := software,
    type := jsToLower (replaceFirstUnderscore category),
    confidence := categoryConfidence category }

/-- Inner keyword loop of detectAITool over one category. -/
def categoryScan (software ls category : String) (tools : List String) :
    Option AIToolDetection :=
  tools.findSome? fun tool =>
    if strIncludes ls tool then some (categoryHit software category) else none

/-- detectAITool: lower-case the software string, scan the categories in
their fixed order, first matching keyword wins. -/
def detectAITool (software : String) : Option AIToolDetection :=
  if software = "" then none
  else
    let ls := jsToLower software
    match categoryScan software ls "DIFFUSION" diffusionTools with
    | some r => some r
    | none =>
      match categoryScan software ls "GENERATIVE" generativeTools with
      | some r => some r
      | none =>
        match categoryScan software ls "EDITING" editingTools with
        | some r => some r
        | none =>
          match categoryScan software ls "EXPORT_TOOLS" exportToolList with
          | some r => some r
          | none => categoryScan software ls "AI_MARKERS" aiMarkers

/-- isExportTool. -/
def isExportTool (software : String) : Bool :=
  if software = "" then false
  else exportToolList.any fun tool => strIncludes (jsToLower software) tool

/-- The Software-field block of analyzeMetadata (metadata-analyzer, JPEG
path): for a truthy software string, any detectAITool hit pushes an
AISignature with hard-coded confidence 95 together with a critical
ai-signature Finding of severity 100, and an isExportTool hit additionally
pushes a warning Finding of severity 50. -/
def softwareScan (software : String) : List Finding × List AISignature :=
  if software = "" then ([], [])
  else
    let (fs, sigs) : List Finding × List AISignature :=
      match detectAITool software with
      | some aiDetection =>
        ([{ type := FindingType.critical, severity := 100,
            category := FindingCategory.aiSignature,
            message := "AI generation software detected: " ++ aiDetection.tool }],
         [{ tool := some aiDetection.tool, toolType := some aiDetection.type,
            confidence := 95,
            evidence := "Software field contains: " ++ software }])
      | none => ([], [])
    if isExportTool software then
      (fs ++ [{ type := FindingType.warning, severity := 50,
                category := FindingCategory.metadata,
                message := "Export tool detected" }], sigs)
    else (fs, sigs)

/-! ### Byte buffers (Node Buffer operations used by lib/utils) -/

/-- Big-endian 32-bit read; Node throws ERR_OUT_OF_RANGE past the end,
modelled as none. -/
def readUInt32BE (b : List ℕ) (off : ℕ) : Option ℕ :=
  if off + 4 ≤ b.length then
    some (b.getD off 0 * 16777216 + b.getD (off + 1) 0 * 65536 +
      b.getD (off + 2) 0 * 256 + b.getD (off + 3) 0)
  else none

/-- Big-endian 16-bit read, same out-of-range behaviour. -/
def readUInt16BE (b : List ℕ) (off : ℕ) : Option ℕ :=
  if off + 2 ≤ b.length then some (b.getD off 0 * 256 + b.getD (off + 1) 0)
  else none

/-- Buffer.subarray(s, e): clamping, never throws. -/
def subarray (b : List ℕ) (s e : ℕ) : List ℕ := (b.drop s).take (e - s)

/-- Buffer.indexOf(value, from) with a non-negative start offset:
first index ≥ from holding the value, else -1. -/
def bufIndexOf (b : List ℕ) (v : ℕ) (start : ℕ) : ℤ :=
  match (b.drop start).findIdx? (· == v) with
  | some i => (start : ℤ) + i
  | none => -1

/-- Buffer.toString with the ascii codec: Node masks each byte to 7
bits. -/
def asciiStr (bytes : List ℕ) : String := ⟨bytes.map fun b => Char.ofNat (b % 128)⟩

/-- Buffer.toString with the latin1 codec: byte value = code point. -/
def latin1Str (bytes : List ℕ) : String := ⟨bytes.map fun b => Char.ofNat (b % 256)⟩

/-- Model of Buffer.toString with the utf-8 codec: standard UTF-8
decoding, with U+FFFD substituted for an invalid leading or continuation
byte (the decoder then resumes at the following byte). -/
def utf8DecodeList : List ℕ → List Char
  | [] => []
  | b0 :: rest =>
    if b0 < 128 then Char.ofNat b0 :: utf8DecodeList rest
    else if 194 ≤ b0 ∧ b0 ≤ 223 then
      match rest with
      | b1 :: rest2 =>
        if 128 ≤ b1 ∧ b1 ≤ 191 then
          Char.ofNat ((b0 - 192) * 64 + (b1 - 128)) :: utf8DecodeList rest2
        else Char.ofNat 65533 :: utf8DecodeList (b1 :: rest2)
      | [] => [Char.ofNat 65533]
    else if 224 ≤ b0 ∧ b0 ≤ 239 then
      match rest with
      | b1 :: b2 :: rest2 =>
        let cp := (b0 - 224) * 4096 + (b1 - 128) * 64 + (b2 - 128)
        if 128 ≤ b1 ∧ b1 ≤ 191 ∧ 128 ≤ b2 ∧ b2 ≤ 191 ∧ 2048 ≤ cp ∧
            ¬(55296 ≤ cp ∧ cp ≤ 57343) then
          Char.ofNat cp :: utf8DecodeList rest2
        else Char.ofNat 65533 :: utf8DecodeList (b1 :: b2 :: rest2)
      | [b1] => Char.ofNat 65533 :: utf8DecodeList [b1]
      | [] => [Char.ofNat 65533]
    else if 240 ≤ b0 ∧ b0 ≤ 244 then
      match rest with
      | b1 :: b2 :: b3 :: rest2 =>
        let cp := (b0 - 240) * 262144 + (b1 - 128) * 4096 + (b2 - 128) * 64 + (b3 - 128)
        if 128 ≤ b1 ∧ b1 ≤ 191 ∧ 128 ≤ b2 ∧ b2 ≤ 191 ∧ 128 ≤ b3 ∧ b3 ≤ 191 ∧
            65536 ≤ cp ∧ cp ≤ 1114111 then
          Char.ofNat cp :: utf8DecodeList rest2
        else Char.ofNat 65533 :: utf8DecodeList (b1 :: b2 :: b3 :: rest2)
      | [b1, b2] => Char.ofNat 65533 :: utf8DecodeList [b1, b2]
      | [b1] => Char.ofNat 65533 :: utf8DecodeList [b1]
      | [] => [Char.ofNat 65533]
    else Char.ofNat 65533 :: utf8DecodeList rest
  termination_by l => l.length
  decreasing_by all_goals simp_arith [List.length]

def utf8Str (bytes : List ℕ) : String := ⟨utf8DecodeList bytes⟩

/-! ### PNG chunk parsing (lib/utils: parsePNGChunks, hasC2PAMetadata) -/

/-- Map.set: replace in place when the key exists (iteration keeps the
original insertion position), append otherwise. -/
def assocSet (l : List (String × String)) (k v : String) : List (String × String) :=
  match l with
  | [] => [(k, v)]
  | (k0, v0) :: t => if k0 = k then (k0, v) :: t else (k0, v0) :: assocSet t k v

/-- The tEXt / zTXt / iTXt branch of the parse loop: returns the updated
map and the chunkText selected by this chunk (if any). -/
def processTextChunk (ctype : String) (chunkData : List ℕ)
    (chunks : List (String × String)) : List (String × String) × Option String :=
  if ctype = "iTXt" then
    let nullIdx1 := bufIndexOf chunkData 0 0
    let nullIdx2 := bufIndexOf chunkData 0 (nullIdx1 + 1).toNat
    let nullIdx3 := bufIndexOf chunkData 0 (nullIdx2 + 1).toNat
    if nullIdx3 > 0 then
      (chunks, some (utf8Str (chunkData.drop (nullIdx3.toNat + 1))))
    else (chunks, none)
  else if ctype = "zTXt" then
    let nullIdx := bufIndexOf chunkData 0 0
    if nullIdx > 0 then
      (chunks, some (utf8Str (chunkData.drop (nullIdx.toNat + 1))))
    else (chunks, none)
  else
    let nullIdx := bufIndexOf chunkData 0 0
    if nullIdx > 0 then
      let keyword := asciiStr (subarray chunkData 0 nullIdx.toNat)
      let chunkText := latin1Str (chunkData.drop (nullIdx.toNat + 1))
      (assocSet chunks (jsToLower keyword) chunkText, some chunkText)
    else (chunks, none)

/-- The while loop of parsePNGChunks.  Each iteration advances the offset
by at least 12 bytes, so fuel b.length + 1 can never run out for a loop
that is still within bounds; none models the uncaught ERR_OUT_OF_RANGE
throw of the CRC read on a truncated chunk. -/
def parsePNGIter (b : List ℕ) : ℕ → ℕ → List (String × String) → Option String →
    Option (List (String × String) × Option String)
  | 0, _, _, _ => none
  | fuel + 1, offset, chunks, textContent =>
    if offset + 8 ≤ b.length then
      match readUInt32BE b offset with
      | none => none
      | some length =>
        let ctype := asciiStr (subarray b (offset + 4) (offset + 8))
        let chunkData := subarray b (offset + 8) (offset + 8 + length)
        match readUInt32BE b (offset + 8 + length) with
        | none => none
        | some _ =>
          let (chunks, chunkText) :=
            if ctype = "tEXt" ∨ ctype = "zTXt" ∨ ctype = "iTXt" then
              processTextChunk ctype chunkData chunks
            else (chunks, none)
          let textContent :=
            match chunkText with
            | some t => if t ≠ "" then some t else textContent
            | none => textContent
          if ctype = "IEND" then some (chunks, textContent)
          else parsePNGIter b fuel (offset + 12 + length) chunks textContent
    else some (chunks, textContent)

/-- parsePNGChunks: none models a thrown ERR_OUT_OF_RANGE (caught by the
caller's outer try/catch).  After the loop the last non-empty text content
is additionally stored under the key "tEXt". -/
def parsePNGChunks (b : List ℕ) : Option (List (String × String)) :=
  if b.take 8 ≠ [137, 80, 78, 71, 13, 10, 26, 10] then some []
  else
    match parsePNGIter b (b.length + 1) 8 [] none with
    | none => none
    | some (chunks, textContent) =>
      some (match textContent with
        | some t => assocSet chunks "tEXt" t
        | none => chunks)

/-- Loop of hasC2PAMetadata.  The marker test compares a single byte with
the two-byte constant 0xFFED = 65517, which no byte value can equal, so
the JUMBF branch is dead for byte-valued buffers; it is still modelled
(with false for its own possible out-of-range throw). -/
def hasC2PAMetadataLoop (b : List ℕ) : ℕ → ℕ → Bool
  | 0, _ => false
  | fuel + 1, offset =>
    if offset + 2 < b.length then
      if b.getD offset 0 = 255 ∧ b.getD (offset + 1) 0 = 65517 then
        match readUInt16BE b (offset + 2) with
        | none => false
        | some length =>
          if offset + 4 + length > b.length then false
          else
            let markerData := subarray b (offset + 4) (offset + 4 + length)
            if containsSeq [106, 117, 109, 98] markerData then true
            else hasC2PAMetadataLoop b fuel (offset + 4 + length)
      else hasC2PAMetadataLoop b fuel (offset + 1)
    else false

def hasC2PAMetadata (b : List ℕ) : Bool := hasC2PAMetadataLoop b (b.length + 1) 2

/-! ### Metadata analyzer, PNG path (metadata-analyzer: analyzeMetadata,
non-JPEG branch) -/

/-- The per-chunk AI keyword scan of analyzeMetadata: for each map entry,
the first PNG_AI_CHUNK_KEYWORDS hit in the lower-cased content pushes one
critical ai-signature Finding and one AISignature, then breaks. -/
def pngChunkAIScan (chunks : List (String × String)) :
    List Finding × List AISignature :=
  chunks.foldl
    (fun acc kv =>
      let lowerContent := jsToLower kv.2
      match pngAIChunkKeywords.find? (fun kw => strIncludes lowerContent kw) with
      | some aiKeyword =>
        (acc.1 ++ [{ type := FindingType.critical, severity := 100,
                     category := FindingCategory.aiSignature,
                     message := "AI generation parameters detected in PNG chunks" }],
         acc.2 ++ [{ tool := some "Unknown PNG-based AI tool",
                     toolType := some "diffusion", confidence := 90,
                     evidence := "PNG " ++ kv.1 ++ " chunk contains: " ++ aiKeyword }])
      | none => acc)
    ([], [])

/-- analyzeMetadata on a decoded non-JPEG (PNG-path) buffer.  hasEXIF
stays false on this path, so the final "No EXIF metadata found" warning is
always pushed.  A parsePNGChunks throw is caught by the outer catch and
becomes the single critical "Metadata analysis failed" Finding. -/
def analyzeMetadataPNG (b : List ℕ) : MetadataAnalysisResult :=
  match parsePNGChunks b with
  | none =>
    { status := AnalysisStatus.failed,
      findings := [{ type := FindingType.critical, severity := 100,
                     category := FindingCategory.metadata,
                     message := "Metadata analysis failed" }],
      cameraInfo := none, timestamps := none, aiSignatures := [],
      gpsInfo := none, hasEXIF := false, hasGPS := false }
  | some pngChunks =>
    let findings0 : List Finding :=
      [{ type := FindingType.info, severity := 15,
         category := FindingCategory.metadata,
         message := "PNG format - limited EXIF support" }]
    let (aiFinds, aiSigs) := pngChunkAIScan pngChunks
    let findings1 := findings0 ++ aiFinds
    let findings2 := findings1 ++
      (if hasC2PAMetadata b then
        [{ type := FindingType.warning, severity := 45,
           category := FindingCategory.metadata,
           message := "C2PA/JUMBF metadata detected" }]
       else [])
    let findings3 := findings2 ++
      [{ type := FindingType.warning, severity := 35,
         category := FindingCategory.metadata,
         message := "No EXIF metadata found" }]
    let hasCriticalAI := findings3.any fun f =>
      f.type == FindingType.critical && f.category == FindingCategory.aiSignature
    let hasWarnings := findings3.any fun f => decide ((40 : ℚ) ≤ f.severity)
    { status :=
        if hasCriticalAI then AnalysisStatus.failed
        else if hasWarnings then AnalysisStatus.warning
        else AnalysisStatus.passed,
      findings := findings3, cameraInfo := none, timestamps := none,
      aiSignatures := aiSigs, gpsInfo := none, hasEXIF := false,
      hasGPS := false }

/-! ### Forensics analyzer (forensics-analyzer.ts)

The raster computations (sharp recompression, resizing, convolution) are
external-library image processing; each sub-analysis body is therefore
modelled as an Except-valued computation, and the analyzer's try/catch
wrapper around it is modelled explicitly.  The decision logic that turns
raw metrics into flags and severities, and the assembly of the Finding
list, are embedded from the source. -/

/-- The manipulation flag of analyzeELA as a function of the computed
variance and hotspot percentage. -/
def elaHasManipulation (variance hotspotPercentage : ℚ) : Bool :=
  (decide (variance > 15) && decide (hotspotPercentage > 5)) ||
    (decide (variance < 3) && decide (hotspotPercentage < 1/2))

/-- The severity ladder of analyzeELA. -/
def elaSeverity (variance : ℚ) : ℚ :=
  if variance > 25 then 75
  else if variance > 18 then 60
  else if variance > 12 then 45
  else if variance < 2 then 70
  else 0

/-- The catch-block fallback of analyzeELA. -/
def elaNeutral : ELAAnalysis :=
  { variance := 0, meanDifference := 0, maxDifference := 0, hotspotCount := 0,
    hotspotPercentage := 0, hasManipulation := false, severity := 0 }

/-- The catch-block fallback of analyzeFrequencyDomain. -/
def frequencyNeutral : FrequencyAnalysis :=
  { hasAnomalies := false, anomalyType := "error", spectralEnergy := 0,
    gridArtifacts := false, periodicPatterns := false, severity := 0 }

/-- The catch-block fallback of analyzeTexturePatterns. -/
def textureNeutral : TextureAnalysis :=
  { naturalness := 50, repetitionScore := 0, microPatternScore := 0,
    textureRichness := 1/2, isArtificial := false, severity := 0 }

/-- The catch-block fallback of analyzeJPEGCompression. -/
def compressionNeutral : CompressionAnalysis :=
  { hasInconsistency := false, inconsistencyType := none,
    hasStandardQuantization := false, estimatedQuality := none,
    blockArtifacts := false, ghostingDetected := false,
    qualityMismatch := false, severity := 0 }

/-- The catch-block fallback of detectAIArtifacts. -/
def aiArtifactNeutral : AIArtifactAnalysis :=
  { hasArtifacts := false, artifactTypes := [], ganFingerprint := 0,
    diffusionMarkers := 0, description := "Analysis error", severity := 0 }

/-- try/catch of a sub-analysis: the error is swallowed and the fallback
returned. -/
def recoverWith (neutral : α) : Except String α → α
  | Except.ok v => v
  | Except.error _ => neutral

def analyzeELAResult (body : Except String ELAAnalysis) : ELAAnalysis :=
  recoverWith elaNeutral body

def analyzeFrequencyResult (body : Except String FrequencyAnalysis) : FrequencyAnalysis :=
  recoverWith frequencyNeutral body

def analyzeTextureResult (body : Except String TextureAnalysis) : TextureAnalysis :=
  recoverWith textureNeutral body

def analyzeCompressionResult (body : Except String CompressionAnalysis) : CompressionAnalysis :=
  recoverWith compressionNeutral body

def detectAIArtifactsResult (body : Except String AIArtifactAnalysis) : AIArtifactAnalysis :=
  recoverWith aiArtifactNeutral body

/-- detectScreenshot's result struct. -/
structure ScreenshotResult where
  isScreenshot : Bool
  probability : ℚ
  deriving DecidableEq, Repr

/-- The ELA Finding pushed by analyzeForensics (only when the flag is
set). -/
def elaFindings (e : ELAAnalysis) : List Finding :=
  if e.hasManipulation then
    [{ type := if e.severity > 70 then FindingType.critical else FindingType.warning,
       severity := e.severity, category := FindingCategory.forensics,
       message := "Error Level Analysis detected manipulation" }]
  else []

def frequencyFindings (r : FrequencyAnalysis) : List Finding :=
  if r.hasAnomalies then
    [{ type := if r.severity > 70 then FindingType.critical else FindingType.warning,
       severity := r.severity, category := FindingCategory.forensics,
       message := "Frequency analysis detected AI generation patterns" }]
  else []

def textureFindings (r : TextureAnalysis) : List Finding :=
  if r.isArtificial then
    [{ type := if r.severity > 70 then FindingType.critical else FindingType.warning,
       severity := r.severity, category := FindingCategory.forensics,
       message := "Texture analysis detected synthetic patterns" }]
  else []

/-- compressionResult is null for non-JPEG input (optional chaining in
the source). -/
def compressionFindings (r : Option CompressionAnalysis) : List Finding :=
  match r with
  | some c =>
    if c.hasInconsistency then
      [{ type := FindingType.warning, severity := c.severity,
         category := FindingCategory.forensics,
         message := "JPEG compression inconsistencies detected" }]
    else []
  | none => []

def aiArtifactFindings (r : AIArtifactAnalysis) : List Finding :=
  if r.hasArtifacts then
    [{ type := if r.severity > 75 then FindingType.critical else FindingType.warning,
       severity := r.severity, category := FindingCategory.forensics,
       message := "AI generation artifacts detected" }]
  else []

def screenshotFindings (r : ScreenshotResult) : List Finding :=
  if r.isScreenshot then
    [{ type := FindingType.warning, severity := 45,
       category := FindingCategory.forensics, message := "Screenshot detected" }]
  else []

def exportFindings (software : Option String) : List Finding :=
  if strTruthy software && isExportTool (software.getD "") then
    [{ type := FindingType.warning, severity := 40,
       category := FindingCategory.forensics,
       message := "Export tool signature detected" }]
  else []

/-- Assembly of analyzeForensics from the seven already-recovered
sub-results: Finding list in push order, overall status, and the result
record. -/
def buildForensicsResult (ela : ELAAnalysis) (freq : FrequencyAnalysis)
    (tex : TextureAnalysis) (comp : Option CompressionAnalysis)
    (ai : AIArtifactAnalysis) (scr : ScreenshotResult)
    (software : Option String) (pngFindings : List Finding) :
    ForensicsAnalysisResult :=
  let findings :=
    elaFindings ela ++ frequencyFindings freq ++ textureFindings tex ++
    compressionFindings comp ++ aiArtifactFindings ai ++
    screenshotFindings scr ++ exportFindings software ++ pngFindings
  let criticalFindings := findings.filter fun f => f.type == FindingType.critical
  let warningFindings := findings.filter fun f => decide ((50 : ℚ) ≤ f.severity)
  { status :=
      if criticalFindings.length > 0 then AnalysisStatus.failed
      else if warningFindings.length > 0 then AnalysisStatus.warning
      else AnalysisStatus.passed,
    findings := findings,
    forensics := some
      { isScreenshot := scr.isScreenshot,
        screenshotProbability := scr.probability,
        exportToolDetected :=
          if strTruthy software && isExportTool (software.getD "") then software
          else none,
        hasStandardQuantization :=
          (comp.map (·.hasStandardQuantization)).getD false,
        quantizationQuality := comp.bind (·.estimatedQuality),
        thumbnailConsistent := true, fileFormatValid := true },
    elaAnalysis := some ela, frequencyAnalysis := some freq,
    textureAnalysis := some tex, compressionAnalysis := comp,
    aiArtifactAnalysis := some ai }

/-- analyzeForensics given the five sub-analysis bodies (each the
Except-valued computation inside its own try/catch), the screenshot
heuristic result, the advisory software hint and the PNG-specific
findings: every body is recovered at its own boundary before assembly. -/
def analyzeForensicsCore (elaBody : Except String ELAAnalysis)
    (freqBody : Except String FrequencyAnalysis)
    (texBody : Except String TextureAnalysis)
    (compBody : Option (Except String CompressionAnalysis))
    (aiBody : Except String AIArtifactAnalysis) (scr : ScreenshotResult)
    (software : Option String) (pngFindings : List Finding) :
    ForensicsAnalysisResult :=
  buildForensicsResult (analyzeELAResult elaBody)
    (analyzeFrequencyResult freqBody) (analyzeTextureResult texBody)
    (compBody.map analyzeCompressionResult) (detectAIArtifactsResult aiBody)
    scr software pngFindings

/-! ### Scoring engine (scoring-engine.ts and lib/utils:
calculateConfidence) -/

/-- calculateConfidence: base plus positive factors minus negative
factors, clamped to [0, 100]. -/
def calculateConfidence (baseScore : ℚ) (positiveFactors negativeFactors : List ℚ) : ℚ :=
  let s := positiveFactors.foldl (fun a b => a + b) baseScore
  let s := negativeFactors.foldl (fun a b => a - b) s
  jsMax 0 (jsMin 100 s)

/-- calculateRiskScore.  The source declares a metadata weight 0.6 that is
never used; the used weights are forensics = 1.0 and aiSignature =
0.95. -/
def calculateRiskScore (metadata : MetadataAnalysisResult)
    (forensics : ForensicsAnalysisResult) : ℚ :=
  let wForensics : ℚ := 1
  let wAiSignature : ℚ := 95/100
  let score : ℚ := 0
  let score := score +
    ((forensics.elaAnalysis.map fun e =>
      if e.hasManipulation then e.severity * wForensics else 0).getD 0)
  let score := score +
    ((forensics.frequencyAnalysis.map fun r =>
      if r.hasAnomalies then r.severity * wForensics else 0).getD 0)
  let score := score +
    ((forensics.textureAnalysis.map fun r =>
      if r.isArtificial then r.severity * wForensics else 0).getD 0)
  let score := score +
    ((forensics.compressionAnalysis.map fun r =>
      if r.hasInconsistency then r.severity * wForensics * (8/10) else 0).getD 0)
  let score := score +
    ((forensics.aiArtifactAnalysis.map fun r =>
      if r.hasArtifacts then r.severity * wForensics * (13/10) else 0).getD 0)
  let score := score + (if metadata.aiSignatures ≠ [] then 85 * wAiSignature else 0)
  let score := metadata.findings.foldl
    (fun acc f =>
      if f.type = FindingType.critical ∧ f.category = FindingCategory.aiSignature then
        acc + f.severity * wAiSignature
      else if f.type = FindingType.warning then acc + f.severity * (4/10)
      else acc)
    score
  let score := forensics.findings.foldl
    (fun acc f =>
      if f.type = FindingType.critical then acc + f.severity * wForensics
      else if f.type = FindingType.warning then acc + f.severity * (5/10)
      else acc)
    score
  let score := score +
    (if (forensics.forensics.map (·.isScreenshot)).getD false then 40 else 0)
  let score := score +
    (if strTruthy (forensics.forensics.bind (·.exportToolDetected)) then 35 else 0)
  let score := score - (if metadata.hasEXIF then 15 else 0)
  let score := score - (if metadata.hasGPS then 15 else 0)
  let score := score -
    (if strTruthy (metadata.cameraInfo.bind (·.make)) ∧
        strTruthy (metadata.cameraInfo.bind (·.model)) then 20 else 0)
  let score := score -
    ((forensics.textureAnalysis.map fun r =>
      if r.naturalness > 70 then (15 : ℚ) else 0).getD 0)
  let score := score -
    ((forensics.elaAnalysis.map fun e =>
      if ¬e.hasManipulation ∧ e.variance < 10 then (10 : ℚ) else 0).getD 0)
  jsMax 0 (jsMin 100 score)

/-- The AI-detection summary returned by detectAIGeneration.
primaryIndicators (free text built with toFixed float formatting) is
omitted; no decision reads it. -/
structure AIDetectionSummary where
  isLikelyAI : Bool
  confidence : ℤ
  detectionMethods : List String
  deriving DecidableEq, Repr

/-- ELA contribution to detectAIGeneration: the flag alone is not enough,
the severity must also be ≥ 50. -/
def elaAIContribution (forensics : ForensicsAnalysisResult) : Option ℚ :=
  match forensics.elaAnalysis with
  | some e => if e.hasManipulation ∧ e.severity ≥ 50 then some e.severity else none
  | none => none

def frequencyAIContribution (forensics : ForensicsAnalysisResult) : Option ℚ :=
  match forensics.frequencyAnalysis with
  | some r => if r.hasAnomalies then some r.severity else none
  | none => none

def textureAIContribution (forensics : ForensicsAnalysisResult) : Option ℚ :=
  match forensics.textureAnalysis with
  | some r => if r.isArtificial then some r.severity else none
  | none => none

/-- AI-artifact contribution, weighted 1.2 by the source. -/
def artifactAIContribution (forensics : ForensicsAnalysisResult) : Option ℚ :=
  match forensics.aiArtifactAnalysis with
  | some r => if r.hasArtifacts then some (r.severity * (12/10)) else none
  | none => none

def compressionAIContribution (forensics : ForensicsAnalysisResult) : Option ℚ :=
  match forensics.compressionAnalysis with
  | some r => if r.hasInconsistency then some r.severity else none
  | none => none

/-- detectAIGeneration.  The source accumulates methods / totalScore /
methodCount imperatively in six if-blocks; the accumulation is written
additively here with one contribution per block in source order.  The
metadata-signature block adds each AISignature's confidence and increments
the counter once per record (on the empty list the block is skipped, which
coincides with adding the empty sum and length); the ELA block requires
the flag and severity ≥ 50; the artifact severity is weighted 1.2; the
isLikelyAI thresholds compare the adjusted confidence. -/
def detectAIGeneration (metadata : MetadataAnalysisResult)
    (forensics : ForensicsAnalysisResult) : AIDetectionSummary :=
  let elaContrib := elaAIContribution forensics
  let freqContrib := frequencyAIContribution forensics
  let texContrib := textureAIContribution forensics
  let artContrib := artifactAIContribution forensics
  let compContrib := compressionAIContribution forensics
  let methods : List String :=
    (if metadata.aiSignatures ≠ [] then ["metadata_signatures"] else []) ++
    (if elaContrib.isSome then ["error_level_analysis"] else []) ++
    (if freqContrib.isSome then ["frequency_analysis"] else []) ++
    (if texContrib.isSome then ["texture_analysis"] else []) ++
    (if artContrib.isSome then ["artifact_detection"] else []) ++
    (if compContrib.isSome then ["compression_analysis"] else [])
  let totalScore : ℚ :=
    (metadata.aiSignatures.map (·.confidence)).sum + elaContrib.getD 0 +
    freqContrib.getD 0 + texContrib.getD 0 + artContrib.getD 0 +
    compContrib.getD 0
  let methodCount : ℕ :=
    metadata.aiSignatures.length + (if elaContrib.isSome then 1 else 0) +
    (if freqContrib.isSome then 1 else 0) + (if texContrib.isSome then 1 else 0) +
    (if artContrib.isSome then 1 else 0) + (if compContrib.isSome then 1 else 0)
  let confidence : ℚ := if methodCount > 0 then totalScore / methodCount else 0
  let multiplier : ℚ := 1 + (Nat.min methodCount 5 : ℕ) * (8/100)
  let adjustedConfidence : ℚ := jsMin 100 (confidence * multiplier)
  let isLikelyAI : Bool :=
    decide ((methodCount ≥ 2 ∧ adjustedConfidence ≥ 55) ∨
      (methodCount ≥ 3 ∧ adjustedConfidence ≥ 45) ∨
      (metadata.aiSignatures ≠ [] ∧ adjustedConfidence ≥ 70))
  { isLikelyAI := isLikelyAI, confidence := jsRound adjustedConfidence,
    detectionMethods := methods }

/-- The six per-method scores of detectAIGeneration as one list, in the
accumulation order of the source. -/
def aiSignalScores (metadata : MetadataAnalysisResult)
    (forensics : ForensicsAnalysisResult) : List ℚ :=
  (metadata.aiSignatures.map (·.confidence)) ++
  (elaAIContribution forensics).toList ++
  (frequencyAIContribution forensics).toList ++
  (textureAIContribution forensics).toList ++
  (artifactAIContribution forensics).toList ++
  (compressionAIContribution forensics).toList

/-- The method counter of detectAIGeneration, as the length of the signal
list. -/
def aiMethodCount (metadata : MetadataAnalysisResult)
    (forensics : ForensicsAnalysisResult) : ℕ :=
  (aiSignalScores metadata forensics).length

/-- The raw (pre-multiplier) confidence of detectAIGeneration. -/
def aiRawConfidence (metadata : MetadataAnalysisResult)
    (forensics : ForensicsAnalysisResult) : ℚ :=
  if 0 < aiMethodCount metadata forensics then
    (aiSignalScores metadata forensics).sum / aiMethodCount metadata forensics
  else 0

/-- The adjusted confidence of detectAIGeneration: raw confidence times
1 + min(methodCount,5)·0.08, capped at 100. -/
def aiAdjustedConfidence (metadata : MetadataAnalysisResult)
    (forensics : ForensicsAnalysisResult) : ℚ :=
  jsMin 100 (aiRawConfidence metadata forensics *
    (1 + (Nat.min (aiMethodCount metadata forensics) 5 : ℕ) * (8/100)))

inductive VerificationStatus
  | VERIFIED
  | RISKY
  | REJECTED
  deriving DecidableEq, Repr

/-- DetailedVerificationResult; processingTime (set by the caller) and
the recommendation free text are omitted. -/
structure DetailedVerificationResult where
  status : VerificationStatus
  confidence : ℤ
  riskScore : ℤ
  totalFindings : ℕ
  criticalCount : ℕ
  warningCount : ℕ
  infoCount : ℕ
  metadata : MetadataAnalysisResult
  forensics : ForensicsAnalysisResult
  aiDetection : AIDetectionSummary
  deriving DecidableEq, Repr

/-- The verdict priority chain of scoreResults, together with the
per-branch confidence. -/
def verdictConfidence (metadata : MetadataAnalysisResult) (riskScore : ℚ)
    (aiDetection : AIDetectionSummary) (criticalFindings : List Finding) :
    VerificationStatus × ℚ :=
  if aiDetection.isLikelyAI ∧ aiDetection.confidence ≥ 75 then
    (VerificationStatus.REJECTED, (aiDetection.confidence : ℚ))
  else if criticalFindings.length > 0 ∧
      criticalFindings.any (fun f => f.category == FindingCategory.aiSignature) then
    (VerificationStatus.REJECTED, calculateConfidence 90 [10] [])
  else if riskScore ≥ 70 then
    (VerificationStatus.RISKY, calculateConfidence riskScore [15] [-10])
  else if riskScore ≥ 45 ∨ (aiDetection.isLikelyAI ∧ aiDetection.confidence ≥ 50) then
    (VerificationStatus.RISKY, calculateConfidence riskScore [10] [-5])
  else
    (VerificationStatus.VERIFIED,
     calculateConfidence 30
       ((if metadata.hasGPS then [(15 : ℚ)] else []) ++
        (if metadata.hasEXIF then [(10 : ℚ)] else []) ++
        (if strTruthy (metadata.cameraInfo.bind (·.make)) then [(10 : ℚ)] else []))
       [])

/-- scoreResults: fuses the two analysis results into the final
verdict. -/
def scoreResults (metadata : MetadataAnalysisResult)
    (forensics : ForensicsAnalysisResult) : DetailedVerificationResult :=
  let allFindings := metadata.findings ++ forensics.findings
  let criticalFindings := allFindings.filter fun f => f.type == FindingType.critical
  let warningFindings := allFindings.filter fun f => f.type == FindingType.warning
  let infoFindings := allFindings.filter fun f => f.type == FindingType.info
  let riskScore := calculateRiskScore metadata forensics
  let aiDetection := detectAIGeneration metadata forensics
  let statusConfidence : VerificationStatus × ℚ :=
    verdictConfidence metadata riskScore aiDetection criticalFindings
  { status := statusConfidence.1,
    confidence := jsRound statusConfidence.2,
    riskScore := jsRound riskScore,
    totalFindings := allFindings.length,
    criticalCount := criticalFindings.length,
    warningCount := warningFindings.length,
    infoCount := infoFindings.length,
    metadata := metadata, forensics := forensics, aiDetection := aiDetection }

/-! ### Spec-side reference definitions (written from the specification
text, for comparison against the source embeddings) -/

/-- The per-method scores as read literally from the spec sentence for
the AI-likelihood computation: every flagged signal contributes ("for
each of {metadata signature, ELA, frequency, texture, artifacts(×1.2
weight), compression} that is flagged"), with no severity floor on ELA
and one counter increment per signal. -/
def claimSignalScores (metadata : MetadataAnalysisResult)
    (forensics : ForensicsAnalysisResult) : List ℚ :=
  (if metadata.aiSignatures ≠ [] then
    [(metadata.aiSignatures.map (·.confidence)).sum]
   else []) ++
  (match forensics.elaAnalysis with
    | some e => if e.hasManipulation then [e.severity] else []
    | none => []) ++
  (match forensics.frequencyAnalysis with
    | some r => if r.hasAnomalies then [r.severity] else []
    | none => []) ++
  (match forensics.textureAnalysis with
    | some r => if r.isArtificial then [r.severity] else []
    | none => []) ++
  (match forensics.aiArtifactAnalysis with
    | some r => if r.hasArtifacts then [r.severity * (12/10)] else []
    | none => []) ++
  (match forensics.compressionAnalysis with
    | some r => if r.hasInconsistency then [r.severity] else []
    | none => [])

/-- isLikelyAI as read literally from the claim: the thresholds compare
the raw confidence = accumulated / methodCount (the claim names
adjustedConfidence separately and does not use it in the conditions). -/
def isLikelyAIClaim (metadata : MetadataAnalysisResult)
    (forensics : ForensicsAnalysisResult) : Bool :=
  let signals := claimSignalScores metadata forensics
  let methodCount := signals.length
  let confidence : ℚ := if 0 < methodCount then signals.sum / methodCount else 0
  decide ((2 ≤ methodCount ∧ 55 ≤ confidence) ∨
    (3 ≤ methodCount ∧ 45 ≤ confidence) ∨
    (metadata.aiSignatures ≠ [] ∧ 70 ≤ confidence))

/-! ### Concrete sample inputs used by counterexamples and witnesses -/

/-- ELA result: flagged with severity 60 (variance 20, hotspots 6%). -/
def sampleELA : ELAAnalysis :=
  { variance := 20, meanDifference := 0, maxDifference := 0, hotspotCount := 0,
    hotspotPercentage := 6, hasManipulation := true, severity := 60 }

/-- Texture result: artificial with severity 45. -/
def sampleTexture : TextureAnalysis :=
  { naturalness := 30, repetitionScore := 0, microPatternScore := 0,
    textureRichness := 0, isArtificial := true, severity := 45 }

/-- Metadata result with no findings and no AI signatures. -/
def sampleMetadata : MetadataAnalysisResult :=
  { status := AnalysisStatus.passed, findings := [], cameraInfo := none,
    timestamps := none, aiSignatures := [], gpsInfo := none,
    hasEXIF := false, hasGPS := false }

/-- Forensics result carrying only the flagged ELA and texture results. -/
def sampleForensics : ForensicsAnalysisResult :=
  { status := AnalysisStatus.warning, findings := [], forensics := none,
    elaAnalysis := some sampleELA, frequencyAnalysis := none,
    textureAnalysis := some sampleTexture, compressionAnalysis := none,
    aiArtifactAnalysis := none }

/-- A minimal PNG: signature, one tEXt chunk with keyword "parameters"
and text "Steps: 20, Sampler: Euler", and an IEND chunk. -/
def samplePNGBuffer : List ℕ :=
  [137, 80, 78, 71, 13, 10, 26, 10,
   0, 0, 0, 36, 116, 69, 88, 116,
   112, 97, 114, 97, 109, 101, 116, 101, 114, 115, 0,
   83, 116, 101, 112, 115, 58, 32, 50, 48, 44, 32,
   83, 97, 109, 112, 108, 101, 114, 58, 32, 69, 117, 108, 101, 114,
   0, 0, 0, 0,
   0, 0, 0, 0, 73, 69, 78, 68, 0, 0, 0, 0]

/-! ## Helper lemmas -/

lemma optToList_sum (o : Option ℚ) : o.toList.sum = o.getD 0 := by
  cases o <;> simp

lemma optToList_length (o : Option ℚ) :
    o.toList.length = if o.isSome then 1 else 0 := by
  cases o <;> simp

lemma jsMin_left_le (a b : ℚ) : jsMin a b ≤ a := by
  unfold jsMin
  by_cases h : a ≤ b
  · rw [if_pos h]
  · rw [if_neg h]
    exact le_of_not_le h

lemma clamp_bounds (s : ℚ) : 0 ≤ jsMax 0 (jsMin 100 s) ∧ jsMax 0 (jsMin 100 s) ≤ 100 := by
  unfold jsMax jsMin
  split_ifs <;> constructor <;> linarith

lemma jsRound_nonneg {q : ℚ} (h : 0 ≤ q) : 0 ≤ jsRound q := by
  unfold jsRound
  exact Int.le_floor.mpr (by push_cast; linarith)

lemma jsRound_le_hundred {q : ℚ} (h : q ≤ 100) : jsRound q ≤ 100 := by
  unfold jsRound
  have hlt : ⌊q + 1/2⌋ < 101 := Int.floor_lt.mpr (by push_cast; linarith)
  omega

lemma jsRound_intCast (n : ℤ) : jsRound (n : ℚ) = n := by
  unfold jsRound
  rw [add_comm, Int.floor_add_int]
  norm_num

lemma calculateConfidence_bounds (b : ℚ) (pos neg : List ℚ) :
    0 ≤ calculateConfidence b pos neg ∧ calculateConfidence b pos neg ≤ 100 := by
  unfold calculateConfidence
  exact clamp_bounds _

lemma calculateRiskScore_bounds (m : MetadataAnalysisResult)
    (f : ForensicsAnalysisResult) :
    0 ≤ calculateRiskScore m f ∧ calculateRiskScore m f ≤ 100 := by
  obtain ⟨x, hx⟩ : ∃ x, calculateRiskScore m f = jsMax 0 (jsMin 100 x) := ⟨_, rfl⟩
  rw [hx]
  exact clamp_bounds _

lemma detectAIGeneration_confidence_le (m : MetadataAnalysisResult)
    (f : ForensicsAnalysisResult) : (detectAIGeneration m f).confidence ≤ 100 := by
  obtain ⟨x, hx⟩ : ∃ x, (detectAIGeneration m f).confidence = jsRound (jsMin 100 x) :=
    ⟨_, rfl⟩
  rw [hx]
  exact jsRound_le_hundred (jsMin_left_le _ _)

/-- The source's second priority condition (nonempty critical filter plus
a some() over it) is equivalent to one any() over all findings. -/
lemma critical_aiSig_iff (l : List Finding) :
    (0 < (l.filter fun f => f.type == FindingType.critical).length ∧
      ((l.filter fun f => f.type == FindingType.critical).any
        fun f => f.category == FindingCategory.aiSignature) = true) ↔
    (l.any fun f =>
      f.type == FindingType.critical && f.category == FindingCategory.aiSignature) = true := by
  constructor
  · rintro ⟨-, h⟩
    rw [List.any_eq_true] at h ⊢
    obtain ⟨x, hx, hq⟩ := h
    rw [List.mem_filter] at hx
    exact ⟨x, hx.1, by rw [Bool.and_eq_true]; exact ⟨hx.2, hq⟩⟩
  · intro h
    rw [List.any_eq_true] at h
    obtain ⟨x, hx, hb⟩ := h
    rw [Bool.and_eq_true] at hb
    have hmem : x ∈ l.filter (fun f => f.type == FindingType.critical) :=
      List.mem_filter.mpr ⟨hx, hb.1⟩
    constructor
    · exact List.length_pos.mpr (List.ne_nil_of_mem hmem)
    · exact List.any_eq_true.mpr ⟨x, hmem, hb.2⟩

/-! ## Claim theorems -/

/-- C6: ELA flags manipulation exactly when (variance > 15 and hotspot
percentage > 5) or (variance < 3 and hotspot percentage < 0.5); its
severity is 75 for variance > 25, 60 for 18 < variance ≤ 25, 45 for
12 < variance ≤ 18, 70 for variance < 2, and 0 otherwise; consequently
the severities at variances 26, 20 and 15 are strictly ordered
75 > 60 > 45. -/
theorem ela_flag_and_severity_bands :
    (∀ variance hotspotPercentage : ℚ,
      elaHasManipulation variance hotspotPercentage = true ↔
        ((15 < variance ∧ 5 < hotspotPercentage) ∨
         (variance < 3 ∧ hotspotPercentage < 1/2))) ∧
    (∀ variance : ℚ, 25 < variance → elaSeverity variance = 75) ∧
    (∀ variance : ℚ, 18 < variance → variance ≤ 25 → elaSeverity variance = 60) ∧
    (∀ variance : ℚ, 12 < variance → variance ≤ 18 → elaSeverity variance = 45) ∧
    (∀ variance : ℚ, variance < 2 → elaSeverity variance = 70) ∧
    (∀ variance : ℚ, 2 ≤ variance → variance ≤ 12 → elaSeverity variance = 0) ∧
    (elaSeverity 26 = 75 ∧ elaSeverity 20 = 60 ∧ elaSeverity 15 = 45 ∧
      (45 : ℚ) < 60 ∧ (60 : ℚ) < 75) := by
  refine ⟨?_, ?_, ?_, ?_, ?_, ?_, ?_⟩
  · intro v h
    unfold elaHasManipulation
    simp only [Bool.or_eq_true, Bool.and_eq_true, decide_eq_true_eq]
  · intro v h
    unfold elaSeverity
    rw [if_pos h]
  · intro v h1 h2
    unfold elaSeverity
    rw [if_neg (by linarith), if_pos h1]
  · intro v h1 h2
    unfold elaSeverity
    rw [if_neg (by linarith), if_neg (by linarith), if_pos h1]
  · intro v h
    unfold elaSeverity
    rw [if_neg (by linarith), if_neg (by linarith), if_neg (by linarith), if_pos h]
  · intro v h1 h2
    unfold elaSeverity
    rw [if_neg (by linarith), if_neg (by linarith), if_neg (by linarith),
      if_neg (by linarith)]
  · refine ⟨?_, ?_, ?_, by norm_num, by norm_num⟩ <;> decide

/-- C6 witness: the theorem instantiated at concrete inputs, with every
hypothesis discharged (flag at variance 16 / hotspot 6; the three claimed
severity bands at 26, 20 and 15; the uniform band at 1; the zero band at
5). -/
theorem ela_flag_and_severity_bands_witness :
    elaHasManipulation 16 6 = true ∧ elaSeverity 26 = 75 ∧ elaSeverity 20 = 60 ∧
      elaSeverity 15 = 45 ∧ elaSeverity 1 = 70 ∧ elaSeverity 5 = 0 :=
  ⟨(ela_flag_and_severity_bands.1 16 6).mpr (Or.inl ⟨by norm_num, by norm_num⟩),
   ela_flag_and_severity_bands.2.1 26 (by norm_num),
   ela_flag_and_severity_bands.2.2.1 20 (by norm_num) (by norm_num),
   ela_flag_and_severity_bands.2.2.2.1 15 (by norm_num) (by norm_num),
   ela_flag_and_severity_bands.2.2.2.2.1 1 (by norm_num),
   ela_flag_and_severity_bands.2.2.2.2.2.1 5 (by norm_num) (by norm_num)⟩

/-- C7: GPS DMS-to-decimal conversion is deg + min/60 + sec/3600, negated
exactly for the references "S" and "W", rounded to six decimal places;
40° 26' 46.00" N gives 40.446111 and the S reference gives its
negation. -/
theorem convertDMS_formula_and_example :
    (∀ (dn dd mn md sn sd : ℚ) (ref : String) (rest : List (ℚ × ℚ)),
      convertDMSToDecimal ((dn, dd) :: (mn, md) :: (sn, sd) :: rest) ref =
        some (round6
          (if ref = "S" ∨ ref = "W" then
            -(dn / dd + (mn / md) / 60 + (sn / sd) / 3600)
          else dn / dd + (mn / md) / 60 + (sn / sd) / 3600))) ∧
    convertDMSToDecimal [((40 : ℚ), 1), (26, 1), (4600, 100)] "N" =
      some (40446111 / 1000000) ∧
    convertDMSToDecimal [((40 : ℚ), 1), (26, 1), (4600, 100)] "S" =
      some (-(40446111 / 1000000)) := by
  refine ⟨fun dn dd mn md sn sd ref rest => rfl, ?_, ?_⟩
  · have hA : convertDMSToDecimal [((40 : ℚ), 1), (26, 1), (4600, 100)] "N" =
        some (round6 ((40 : ℚ) / 1 + 26 / 1 / 60 + 4600 / 100 / 3600)) := rfl
    rw [hA]
    congr 1
    unfold round6 jsRound
    have hf : ⌊((40 : ℚ) / 1 + 26 / 1 / 60 + 4600 / 100 / 3600) * 1000000 + 1 / 2⌋ =
        40446111 := by
      rw [Int.floor_eq_iff]
      constructor <;> norm_num
    rw [hf]
    norm_num
  · have hA : convertDMSToDecimal [((40 : ℚ), 1), (26, 1), (4600, 100)] "S" =
        some (round6 (-((40 : ℚ) / 1 + 26 / 1 / 60 + 4600 / 100 / 3600))) := rfl
    rw [hA]
    congr 1
    unfold round6 jsRound
    have hf : ⌊(-((40 : ℚ) / 1 + 26 / 1 / 60 + 4600 / 100 / 3600)) * 1000000 + 1 / 2⌋ =
        -40446111 := by
      rw [Int.floor_eq_iff]
      constructor <;> norm_num
    rw [hf]
    norm_num

/-- C8: a runtime failure inside any of the five forensic sub-analyses is
replaced by that analysis's neutral result (detection flag false,
severity 0), contributes no Finding, and leaves the sibling sub-analyses
and the assembled forensics result untouched. -/
theorem forensics_subanalysis_failure_neutral (err : String)
    (freq : FrequencyAnalysis) (tex : TextureAnalysis)
    (comp : CompressionAnalysis) (ai : AIArtifactAnalysis)
    (scr : ScreenshotResult) (software : Option String) (png : List Finding) :
    (analyzeELAResult (Except.error err) = elaNeutral ∧
      elaNeutral.hasManipulation = false ∧ elaNeutral.severity = 0 ∧
      elaFindings elaNeutral = []) ∧
    (analyzeFrequencyResult (Except.error err) = frequencyNeutral ∧
      frequencyNeutral.hasAnomalies = false ∧ frequencyNeutral.severity = 0 ∧
      frequencyFindings frequencyNeutral = []) ∧
    (analyzeTextureResult (Except.error err) = textureNeutral ∧
      textureNeutral.isArtificial = false ∧ textureNeutral.severity = 0 ∧
      textureFindings textureNeutral = []) ∧
    (analyzeCompressionResult (Except.error err) = compressionNeutral ∧
      compressionNeutral.hasInconsistency = false ∧
      compressionNeutral.severity = 0 ∧
      compressionFindings (some compressionNeutral) = []) ∧
    (detectAIArtifactsResult (Except.error err) = aiArtifactNeutral ∧
      aiArtifactNeutral.hasArtifacts = false ∧ aiArtifactNeutral.severity = 0 ∧
      aiArtifactFindings aiArtifactNeutral = []) ∧
    ((analyzeForensicsCore (Except.error err) (Except.ok freq) (Except.ok tex)
        (some (Except.ok comp)) (Except.ok ai) scr software png).elaAnalysis =
      some elaNeutral ∧
     (analyzeForensicsCore (Except.error err) (Except.ok freq) (Except.ok tex)
        (some (Except.ok comp)) (Except.ok ai) scr software png).frequencyAnalysis =
      some freq ∧
     (analyzeForensicsCore (Except.error err) (Except.ok freq) (Except.ok tex)
        (some (Except.ok comp)) (Except.ok ai) scr software png).textureAnalysis =
      some tex ∧
     (analyzeForensicsCore (Except.error err) (Except.ok freq) (Except.ok tex)
        (some (Except.ok comp)) (Except.ok ai) scr software png).compressionAnalysis =
      some comp ∧
     (analyzeForensicsCore (Except.error err) (Except.ok freq) (Except.ok tex)
        (some (Except.ok comp)) (Except.ok ai) scr software png).aiArtifactAnalysis =
      some ai ∧
     (analyzeForensicsCore (Except.error err) (Except.ok freq) (Except.ok tex)
        (some (Except.ok comp)) (Except.ok ai) scr software png).findings =
      frequencyFindings freq ++ textureFindings tex ++
        compressionFindings (some comp) ++ aiArtifactFindings ai ++
        screenshotFindings scr ++ exportFindings software ++ png) := by
  refine ⟨⟨rfl, rfl, rfl, rfl⟩, ⟨rfl, rfl, rfl, rfl⟩, ⟨rfl, rfl, rfl, rfl⟩,
    ⟨rfl, rfl, rfl, rfl⟩, ⟨rfl, rfl, rfl, rfl⟩, rfl, rfl, rfl, rfl, rfl, ?_⟩
  simp [analyzeForensicsCore, buildForensicsResult, analyzeELAResult,
    analyzeFrequencyResult, analyzeTextureResult, analyzeCompressionResult,
    detectAIArtifactsResult, recoverWith, elaFindings, elaNeutral]

/-- C1: the final verdict is computed in strict priority order: REJECTED
when isLikelyAI holds with AI-detection confidence ≥ 75 (the risk score
does not enter this branch), else REJECTED when a critical ai-signature
Finding is present, else RISKY when riskScore ≥ 70, else RISKY when
riskScore ≥ 45 or (isLikelyAI with confidence ≥ 50), else VERIFIED. -/
theorem scoreResults_verdict_priority (m : MetadataAnalysisResult)
    (f : ForensicsAnalysisResult) :
    (scoreResults m f).status =
      (if (detectAIGeneration m f).isLikelyAI ∧
          (detectAIGeneration m f).confidence ≥ 75 then
        VerificationStatus.REJECTED
      else if ((m.findings ++ f.findings).any fun x =>
          x.type == FindingType.critical &&
            x.category == FindingCategory.aiSignature) then
        VerificationStatus.REJECTED
      else if calculateRiskScore m f ≥ 70 then VerificationStatus.RISKY
      else if calculateRiskScore m f ≥ 45 ∨
          ((detectAIGeneration m f).isLikelyAI ∧
            (detectAIGeneration m f).confidence ≥ 50) then
        VerificationStatus.RISKY
      else VerificationStatus.VERIFIED) := by
  have hstat : (scoreResults m f).status =
      (verdictConfidence m (calculateRiskScore m f) (detectAIGeneration m f)
        ((m.findings ++ f.findings).filter fun x =>
          x.type == FindingType.critical)).1 := rfl
  rw [hstat]
  unfold verdictConfidence
  by_cases h1 : (detectAIGeneration m f).isLikelyAI = true ∧
      (detectAIGeneration m f).confidence ≥ 75
  · rw [if_pos h1, if_pos h1]
  · rw [if_neg h1, if_neg h1]
    by_cases h2 : ((m.findings ++ f.findings).any fun x =>
        x.type == FindingType.critical &&
          x.category == FindingCategory.aiSignature) = true
    · rw [if_pos ((critical_aiSig_iff _).mpr h2), if_pos h2]
    · rw [if_neg (fun hc => h2 ((critical_aiSig_iff _).mp hc)), if_neg h2]
      by_cases h3 : calculateRiskScore m f ≥ 70
      · rw [if_pos h3, if_pos h3]
      · rw [if_neg h3, if_neg h3]
        by_cases h4 : calculateRiskScore m f ≥ 45 ∨
            ((detectAIGeneration m f).isLikelyAI = true ∧
              (detectAIGeneration m f).confidence ≥ 50)
        · rw [if_pos h4, if_pos h4]
        · rw [if_neg h4, if_neg h4]

/-- C2 counterexample: with no metadata signatures, a flagged ELA result
of severity 60 and an artificial texture of severity 45, the code's
isLikelyAI is true (2 methods, adjusted confidence 52.5 × 1.16 = 60.9 ≥
55) while the claim's conditions over the raw confidence (52.5 < 55) are
all false. -/
theorem detectAIGeneration_claim_counterexample :
    (detectAIGeneration sampleMetadata sampleForensics).isLikelyAI = true ∧
    isLikelyAIClaim sampleMetadata sampleForensics = false := by
  constructor
  · unfold detectAIGeneration elaAIContribution frequencyAIContribution
      textureAIContribution artifactAIContribution compressionAIContribution
    norm_num [sampleMetadata, sampleForensics, sampleELA, sampleTexture, jsMin]
  · unfold isLikelyAIClaim claimSignalScores
    norm_num [sampleMetadata, sampleForensics, sampleELA, sampleTexture]

/-- C2 amended: each signal among {metadata AI signatures (one score and
one counter increment per record), ELA (only when flagged with severity ≥
50), frequency, texture, AI artifacts (weighted 1.2), compression (each
when flagged)} contributes its confidence/severity; confidence =
accumulated/methodCount, multiplier = 1 + min(methodCount,5)·0.08,
adjustedConfidence = min(100, confidence·multiplier); isLikelyAI holds
exactly when (≥2 methods and adjustedConfidence ≥ 55) or (≥3 methods and
adjustedConfidence ≥ 45) or (a metadata signature is present and
adjustedConfidence ≥ 70); the reported confidence is the rounded
adjustedConfidence. -/
theorem detectAIGeneration_adjusted_thresholds (m : MetadataAnalysisResult)
    (f : ForensicsAnalysisResult) :
    (detectAIGeneration m f).isLikelyAI =
      decide ((2 ≤ aiMethodCount m f ∧ 55 ≤ aiAdjustedConfidence m f) ∨
        (3 ≤ aiMethodCount m f ∧ 45 ≤ aiAdjustedConfidence m f) ∨
        (m.aiSignatures ≠ [] ∧ 70 ≤ aiAdjustedConfidence m f)) ∧
    (detectAIGeneration m f).confidence = jsRound (aiAdjustedConfidence m f) := by
  have hlen : aiMethodCount m f =
      m.aiSignatures.length + (if (elaAIContribution f).isSome then 1 else 0) +
      (if (frequencyAIContribution f).isSome then 1 else 0) +
      (if (textureAIContribution f).isSome then 1 else 0) +
      (if (artifactAIContribution f).isSome then 1 else 0) +
      (if (compressionAIContribution f).isSome then 1 else 0) := by
    unfold aiMethodCount
    simp only [aiSignalScores, List.length_append, List.length_map,
      optToList_length]
  have hsum : (aiSignalScores m f).sum =
      (m.aiSignatures.map (·.confidence)).sum + (elaAIContribution f).getD 0 +
      (frequencyAIContribution f).getD 0 + (textureAIContribution f).getD 0 +
      (artifactAIContribution f).getD 0 + (compressionAIContribution f).getD 0 := by
    simp only [aiSignalScores, List.sum_append, optToList_sum]
  unfold detectAIGeneration aiAdjustedConfidence aiRawConfidence
  rw [hlen, hsum]
  exact ⟨by simp only [ge_iff_le, gt_iff_lt], by simp only [ge_iff_le, gt_iff_lt]⟩

/-- Per-branch confidence of the verdict chain stays in [0, 100]
(priority 1 returns the AI confidence, which the branch guard bounds from
below and the min(100,·) bounds from above; every other branch is a
calculateConfidence clamp). -/
lemma verdictConfidence_bounds (m : MetadataAnalysisResult) (risk : ℚ)
    (ai : AIDetectionSummary) (crit : List Finding)
    (hai : ai.confidence ≤ 100) :
    0 ≤ (verdictConfidence m risk ai crit).2 ∧
      (verdictConfidence m risk ai crit).2 ≤ 100 := by
  unfold verdictConfidence
  by_cases h1 : ai.isLikelyAI = true ∧ ai.confidence ≥ 75
  · rw [if_pos h1]
    refine ⟨?_, ?_⟩
    · show (0 : ℚ) ≤ (ai.confidence : ℚ)
      have h0 : (0 : ℤ) ≤ ai.confidence := le_trans (by norm_num) h1.2
      exact_mod_cast h0
    · show (ai.confidence : ℚ) ≤ 100
      exact_mod_cast hai
  · rw [if_neg h1]
    split_ifs
    all_goals exact calculateConfidence_bounds _ _ _

/-- C10: for every pair of analysis results the returned riskScore and
confidence are within [0, 100]. -/
theorem scoreResults_bounds (m : MetadataAnalysisResult)
    (f : ForensicsAnalysisResult) :
    0 ≤ (scoreResults m f).riskScore ∧ (scoreResults m f).riskScore ≤ 100 ∧
    0 ≤ (scoreResults m f).confidence ∧ (scoreResults m f).confidence ≤ 100 := by
  have hrisk : (scoreResults m f).riskScore = jsRound (calculateRiskScore m f) := rfl
  have hconf : (scoreResults m f).confidence =
      jsRound (verdictConfidence m (calculateRiskScore m f)
        (detectAIGeneration m f)
        ((m.findings ++ f.findings).filter fun x =>
          x.type == FindingType.critical)).2 := rfl
  obtain ⟨hr0, hr1⟩ := calculateRiskScore_bounds m f
  obtain ⟨hv0, hv1⟩ := verdictConfidence_bounds m (calculateRiskScore m f)
    (detectAIGeneration m f)
    ((m.findings ++ f.findings).filter fun x => x.type == FindingType.critical)
    (detectAIGeneration_confidence_le m f)
  refine ⟨?_, ?_, ?_, ?_⟩
  · rw [hrisk]; exact jsRound_nonneg hr0
  · rw [hrisk]; exact jsRound_le_hundred hr1
  · rw [hconf]; exact jsRound_nonneg hv0
  · rw [hconf]; exact jsRound_le_hundred hv1

/-- A findSome? whose body returns a fixed value on success can only
return that value. -/
lemma findSome?_const {α β : Type} (p : α → Bool) (c : β) {l : List α} {r : β}
    (h : (l.findSome? fun a => if p a then some c else none) = some r) : r = c := by
  induction l with
  | nil => simp at h
  | cons t ts ih =>
    rw [List.findSome?_cons] at h
    by_cases hp : p t = true
    · simp [hp] at h
      exact h.symm
    · simp [hp] at h
      exact ih h

/-- A successful category scan returns exactly the category's hit
record. -/
lemma categoryScan_eq {software ls category : String} {tools : List String}
    {r : AIToolDetection}
    (h : categoryScan software ls category tools = some r) :
    r = categoryHit software category := by
  unfold categoryScan at h
  exact findSome?_const _ _ h

/-- C3 (code bug in the source): a Software string matching only the
export/screenshot category ("screenshot") still makes analyzeMetadata
emit the critical ai-signature Finding of severity 100 plus an
AISignature of confidence 95 — in addition to the export warning of
severity 50 — because the emission is keyed on detectAITool().detected,
which is true for every category. -/
theorem softwareScan_export_only_critical :
    detectAITool "screenshot" =
      some { tool := "screenshot", type := "export tools", confidence := 30 } ∧
    (softwareScan "screenshot").1 =
      [{ type := FindingType.critical, severity := 100,
         category := FindingCategory.aiSignature,
         message := "AI generation software detected: screenshot" },
       { type := FindingType.warning, severity := 50,
         category := FindingCategory.metadata,
         message := "Export tool detected" }] ∧
    (softwareScan "screenshot").2 =
      [{ tool := some "screenshot", toolType := some "export tools",
         confidence := 95,
         evidence := "Software field contains: screenshot" }] := by
  refine ⟨by decide, by decide, by decide⟩

/-- C4 counterexample: the Software string "gan" matches only the generic
AI-marker category, for which detectAITool reports confidence 90, yet the
AISignature record built by analyzeMetadata carries confidence 95, not
the category's 90. -/
theorem aiSignature_confidence_counterexample :
    detectAITool "gan" =
      some { tool := "gan", type := "ai markers", confidence := 90 } ∧
    (softwareScan "gan").2 =
      [{ tool := some "gan", toolType := some "ai markers", confidence := 95,
         evidence := "Software field contains: gan" }] ∧
    (95 : ℚ) ≠ 90 := by
  refine ⟨by decide, by decide, by norm_num⟩

/-- C4 amended: the confidence reported by detectAITool is determined by
the matched category (95 diffusion/generative, 90 generic AI markers, 40
editing, 30 export tools), while the AISignature record built by
analyzeMetadata always carries confidence 95. -/
theorem detectAITool_category_confidence (s : String) (r : AIToolDetection)
    (h : detectAITool s = some r) :
    ((r.type = "diffusion" ∧ r.confidence = 95) ∨
     (r.type = "generative" ∧ r.confidence = 95) ∨
     (r.type = "editing" ∧ r.confidence = 40) ∨
     (r.type = "export tools" ∧ r.confidence = 30) ∨
     (r.type = "ai markers" ∧ r.confidence = 90)) ∧
    ∀ sig ∈ (softwareScan s).2, sig.confidence = 95 := by
  have h0 := h
  unfold detectAITool at h
  by_cases hs : s = ""
  · rw [if_pos hs] at h
    exact absurd h (by simp)
  · rw [if_neg hs] at h
    constructor
    · cases h1 : categoryScan s (jsToLower s) "DIFFUSION" diffusionTools with
      | some r1 =>
        simp only [h1] at h
        cases h
        have := categoryScan_eq h1
        subst this
        exact Or.inl ⟨rfl, rfl⟩
      | none =>
        simp only [h1] at h
        cases h2 : categoryScan s (jsToLower s) "GENERATIVE" generativeTools with
        | some r2 =>
          simp only [h2] at h
          cases h
          have := categoryScan_eq h2
          subst this
          exact Or.inr (Or.inl ⟨rfl, rfl⟩)
        | none =>
          simp only [h2] at h
          cases h3 : categoryScan s (jsToLower s) "EDITING" editingTools with
          | some r3 =>
            simp only [h3] at h
            cases h
            have := categoryScan_eq h3
            subst this
            exact Or.inr (Or.inr (Or.inl ⟨rfl, rfl⟩))
          | none =>
            simp only [h3] at h
            cases h4 : categoryScan s (jsToLower s) "EXPORT_TOOLS" exportToolList with
            | some r4 =>
              simp only [h4] at h
              cases h
              have := categoryScan_eq h4
              subst this
              exact Or.inr (Or.inr (Or.inr (Or.inl ⟨rfl, rfl⟩)))
            | none =>
              simp only [h4] at h
              have := categoryScan_eq h
              subst this
              exact Or.inr (Or.inr (Or.inr (Or.inr ⟨rfl, rfl⟩)))
    · unfold softwareScan
      rw [if_neg hs]
      simp only [h0]
      intro sig hsig
      split at hsig <;> simp at hsig <;> rw [hsig]

/-- C4 witness: the amended theorem applied to the diffusion-tool
signature "stable diffusion" (first keyword of the diffusion category):
detectAITool reports confidence 95 for the diffusion category, and
analyzeMetadata emits the critical ai-signature Finding of severity 100
together with an AISignature of confidence 95. -/
theorem detectAITool_category_confidence_witness :
    detectAITool "stable diffusion" =
      some { tool := "stable diffusion", type := "diffusion", confidence := 95 } ∧
    (∀ sig ∈ (softwareScan "stable diffusion").2, sig.confidence = 95) ∧
    (softwareScan "stable diffusion").1 =
      [{ type := FindingType.critical, severity := 100,
         category := FindingCategory.aiSignature,
         message := "AI generation software detected: stable diffusion" }] ∧
    (softwareScan "stable diffusion").2 =
      [{ tool := some "stable diffusion", toolType := some "diffusion",
         confidence := 95,
         evidence := "Software field contains: stable diffusion" }] := by
  have h : detectAITool "stable diffusion" =
      some { tool := "stable diffusion", type := "diffusion", confidence := 95 } := by
    decide
  have hmain := detectAITool_category_confidence "stable diffusion" _ h
  exact ⟨h, hmain.2, by decide, by decide⟩

/-- C5 counterexample: a PNG whose single tEXt chunk is keyed
"parameters" with text "Steps: 20, Sampler: Euler" produces TWO critical
Findings with message "AI generation parameters detected in PNG chunks",
not exactly one: parsePNGChunks stores the text once under "parameters"
and again under the aggregate key "tEXt", and the scan emits one Finding
per map entry. -/
theorem png_parameters_counterexample :
    ((analyzeMetadataPNG samplePNGBuffer).findings.filter fun f =>
      f.type == FindingType.critical &&
        f.message == "AI generation parameters detected in PNG chunks").length = 2 ∧
    (analyzeMetadataPNG samplePNGBuffer).status = AnalysisStatus.failed := by
  refine ⟨by decide, by decide⟩

/-- C5 amended: the "parameters" chunk appears in the parsed chunk map
both under its own key and under the duplicated "tEXt" key, so the
Metadata Analyzer produces exactly two critical Findings with message
"AI generation parameters detected in PNG chunks", and the result status
is failed. -/
theorem png_parameters_two_findings :
    parsePNGChunks samplePNGBuffer =
      some [("parameters", "Steps: 20, Sampler: Euler"),
            ("tEXt", "Steps: 20, Sampler: Euler")] ∧
    ((analyzeMetadataPNG samplePNGBuffer).findings.filter fun f =>
      f.type == FindingType.critical &&
        f.message == "AI generation parameters detected in PNG chunks").length = 2 ∧
    (analyzeMetadataPNG samplePNGBuffer).status = AnalysisStatus.failed := by
  refine ⟨by decide, by decide, by decide⟩

/-- C9 counterexample: "2024:01:15x 14:30:45" does not match the fixed
pattern YYYY:MM:DD HH:MM:SS, yet parseEXIFDate returns a present, valid
timestamp (parseInt stops at the first non-digit), not an absent
value. -/
theorem parseEXIFDate_lenient_counterexample :
    matchesEXIFPattern "2024:01:15x 14:30:45" = false ∧
    parseEXIFDate "2024:01:15x 14:30:45" =
      some (some { year := 2024, month := 0, day := 15, hour := 14,
                   minute := 30, second := 45 }) := by
  refine ⟨by decide, by decide⟩

/-- C9 amended: parseEXIFDate returns absent (null) exactly when the
two-space-separated-fields / three-colon-separated-components shape
fails; strings in the fixed pattern parse to a timestamp, but other
shape-satisfying strings are parsed leniently with parseInt semantics
(possibly yielding an Invalid Date instead of absent);
parseGPSTimestamp returns absent exactly when one input string is empty;
both parsers are total (never throw). -/
theorem parseDates_absent_iff_shape :
    (∀ s : String, parseEXIFDate s = none ↔ exifShape s = false) ∧
    parseEXIFDate "2024:01:15 14:30:45" =
      some (some { year := 2024, month := 0, day := 15, hour := 14,
                   minute := 30, second := 45 }) ∧
    (∀ d t : String, parseGPSTimestamp d t = none ↔ (d = "" ∨ t = "")) := by
  refine ⟨?_, by decide, ?_⟩
  · intro s
    unfold parseEXIFDate exifShape
    by_cases hs : s = ""
    · subst hs
      decide
    · rw [if_neg hs]
      rcases hp : jsSplit s ' ' with _ | ⟨dp, _ | ⟨tp, _ | _⟩⟩ <;> simp [hp]
      rcases hdp : jsSplit dp ':' with _ | ⟨a, _ | ⟨b, _ | ⟨c, _ | _⟩⟩⟩ <;>
        rcases htp : jsSplit tp ':' with _ | ⟨x, _ | ⟨y, _ | ⟨z, _ | _⟩⟩⟩ <;>
        simp [hdp, htp]
  · intro d t
    unfold parseGPSTimestamp
    by_cases h : d = "" ∨ t = ""
    · rw [if_pos h]
      simp [h]
    · rw [if_neg h]
      simp [h]

end CarCheck
